import Mathlib

/-!
Verification development for the resumable BLE sensor-download engine
(`download_sensor_data.py`).  The Python source is shallowly embedded:

* byte buffers are `List Nat` (each element a byte value);
* the notification callback, the record decoder and the database layer
  become pure functions with explicit state;
* Python `float` values produced by exact decimal scalings (`x / 10.0`,
  `x * 100`) are modelled as exact rationals `ℚ`;
* wall-clock milliseconds are `Int`, event-loop seconds are `ℚ`.
-/

namespace SensorDL

/-- Packet type HEADER (source line 37). -/
def PACKET_TYPE_HEADER : Nat := 0

/-- Packet type DATA (source line 38). -/
def PACKET_TYPE_DATA : Nat := 1

/-- Packet type END (source line 39). -/
def PACKET_TYPE_END : Nat := 2

/-- The big-endian 16-bit value formed from the two bytes at `offset`,
mirroring the expression `(data[offset] << 8) | data[offset + 1]`
(source line 247), without the length guard. -/
def be_u16_val (data : List Nat) (offset : Nat) : Nat :=
  (data.getD offset 0) <<< 8 ||| data.getD (offset + 1) 0

/-- `parse_uint16_be` (source lines 243-247): `None` when fewer than two
bytes remain at `offset`, otherwise the big-endian 16-bit value. -/
def parse_uint16_be (data : List Nat) (offset : Nat) : Option Nat :=
  if offset + 2 > data.length then none
  else some (be_u16_val data offset)

/-- Reinterpret a 16-bit unsigned value as signed, mirroring
`struct.unpack` with format `>h` (source line 267). -/
def signed16 (v : Nat) : Int :=
  if v < 32768 then (v : Int) else (v : Int) - 65536

/-- The four raw fields of one 6-byte sensor record as decoded by
`parse_sensor_record` (source lines 262-281). -/
structure RawRecord where
  temp_raw : Int
  press_kpa : Nat
  hum_pct : Nat
  bat_raw : Nat
deriving Repr, DecidableEq

/-- `temp_c` field of the decoded dict: `temp_x10 / 10.0`
(source line 273), modelled as an exact rational. -/
def RawRecord.temp_c (r : RawRecord) : ℚ := (r.temp_raw : ℚ) / 10

/-- `battery_v` field of the decoded dict: `bat_v_x10 / 10.0`
(source line 276), modelled as an exact rational. -/
def RawRecord.battery_v (r : RawRecord) : ℚ := (r.bat_raw : ℚ) / 10

/-- `parse_sensor_record` (source lines 262-281): `None` when fewer than
6 bytes remain at `offset`; otherwise the four raw fields.  The two
16-bit reads always succeed under the 6-byte guard, so their values are
taken directly. -/
def parse_sensor_record (data : List Nat) (offset : Nat) : Option RawRecord :=
  if offset + 6 > data.length then none
  else some
    { temp_raw := signed16 (be_u16_val data offset)
      press_kpa := be_u16_val data (offset + 2)
      hum_pct := data.getD (offset + 4) 0
      bat_raw := data.getD (offset + 5) 0 }

/-- One record as appended to `received_records` by the notification
handler: the raw fields plus the assigned `seq` (source line 434) and the
synthetic `timestamp_ms` (source line 438). -/
structure SessionRecord where
  seq : Int
  timestamp_ms : Int
  raw : RawRecord
deriving Repr, DecidableEq

/-- The record-decoding loop of the DATA branch (source lines 429-442):
`i` counts records in this frame, `offset` starts at 5 and advances by 6
per success, and a failed `parse_sensor_record` breaks the loop.  `count`
is the declared record count of the frame (used by the synthetic
timestamp), `now_ms` models `datetime.now()` at receipt of the frame. -/
def decodeRecordsGo (data : List Nat) (start_seq : Int) (now_ms : Int)
    (count : Nat) : Nat → Nat → Nat → List SessionRecord
  | 0, _, _ => []
  | n + 1, i, offset =>
    match parse_sensor_record data offset with
    | some r =>
        { seq := start_seq + (i : Int)
          timestamp_ms := now_ms - ((count : Int) - 1 - (i : Int)) * 30000
          raw := r } :: decodeRecordsGo data start_seq now_ms count n (i + 1) (offset + 6)
    | none => []

/-- All records decoded from one DATA frame: the loop of source lines
429-442 started at `i = 0`, `offset = 5`. -/
def decodeRecords (data : List Nat) (start_seq : Int) (now_ms : Int)
    (count : Nat) : List SessionRecord :=
  decodeRecordsGo data start_seq now_ms count count 0 5

/-- The `transfer_stats` dict (source lines 350-356). -/
structure TransferStats where
  header_received : Bool
  total_records : Nat
  data_packets : Nat
  end_received : Bool
  interval_sec : Nat
deriving Repr, DecidableEq

/-- Initial `transfer_stats` (source lines 350-356). -/
def initStats : TransferStats :=
  { header_received := false, total_records := 0, data_packets := 0
    end_received := false, interval_sec := 0 }

/-- The mutable state read and written by `notification_handler`:
`received_records`, `transfer_stats`, and the nonlocal flags
`transfer_complete` and `last_packet_time`. -/
structure HandlerState where
  received_records : List SessionRecord
  stats : TransferStats
  transfer_complete : Bool
  last_packet_time : ℚ
deriving Repr, DecidableEq

/-- Handler state before any frame arrives; `t0` is the event-loop time
stored into `last_packet_time` (source lines 402 and 469). -/
def initState (t0 : ℚ) : HandlerState :=
  { received_records := [], stats := initStats
    transfer_complete := false, last_packet_time := t0 }

/-- `notification_handler` (source lines 406-452).  A zero-length frame
returns immediately; every other frame first refreshes
`last_packet_time`, then dispatches on its first byte: HEADER (≥3 bytes)
records the interval, DATA (≥5 bytes) decodes records with the per-frame
loop index, END (≥2 bytes) marks the transfer complete.  Unknown types
and too-short frames change nothing further. -/
def notification_handler (start_seq : Int) (now_ms : Int) (now : ℚ)
    (s : HandlerState) (data : List Nat) : HandlerState :=
  if data.length = 0 then s
  else
    let s1 := { s with last_packet_time := now }
    let packet_type := data.getD 0 0
    if packet_type = PACKET_TYPE_HEADER then
      if 3 ≤ data.length then
        { s1 with stats := { s1.stats with
            header_received := true
            interval_sec := (parse_uint16_be data 1).getD 0 } }
      else s1
    else if packet_type = PACKET_TYPE_DATA then
      if 5 ≤ data.length then
        let count := data.getD 3 0
        { s1 with
          stats := { s1.stats with
            data_packets := s1.stats.data_packets + 1
            total_records := s1.stats.total_records + count }
          received_records :=
            s1.received_records ++ decodeRecords data start_seq now_ms count }
      else s1
    else if packet_type = PACKET_TYPE_END then
      if 2 ≤ data.length then
        { s1 with
          stats := { s1.stats with end_received := true }
          transfer_complete := true }
      else s1
    else s1

/-- One raw notification with its event-loop arrival time and the wall
clock used for synthetic timestamps. -/
structure Notif where
  time : ℚ
  wall_ms : Int
  data : List Nat

/-- Process a sequence of notifications in arrival order. -/
def processFrames (start_seq : Int) (init : HandlerState)
    (frames : List Notif) : HandlerState :=
  frames.foldl (fun s f => notification_handler start_seq f.wall_ms f.time s f.data) init

/-! ## Storage gateway (`SensorDatabase`) -/

/-- One row of the `records` table (source lines 55-69); the table also
carries an autoincrement id which plays no role in the semantics and is
omitted. -/
structure DbRecord where
  mac : String
  seq : Int
  sample_ts_ms : Int
  rssi : Int
  temp_x100 : Int
  press_pa10 : Int
  hum_x100 : Int
  battery_mv : Int
  imported_at_ms : Int
deriving Repr, DecidableEq

/-- Python `int()` applied to a rational: truncation toward zero. -/
def rat_trunc (q : ℚ) : Int := if 0 ≤ q then ⌊q⌋ else ⌈q⌉

/-- The per-record conversion of `insert_records` (source lines 128-141):
the decoded dict scaled into the storage units. -/
def toDbRecord (mac : String) (rssi : Int) (now_ms : Int)
    (r : SessionRecord) : DbRecord :=
  { mac := mac, seq := r.seq, sample_ts_ms := r.timestamp_ms, rssi := rssi
    temp_x100 := rat_trunc (r.raw.temp_c * 100)
    press_pa10 := rat_trunc ((r.raw.press_kpa : ℚ) * 100)
    hum_x100 := rat_trunc ((r.raw.hum_pct : ℚ) * 100)
    battery_mv := rat_trunc (r.raw.battery_v * 1000)
    imported_at_ms := now_ms }

/-- Whether a stored row has the given `(mac, seq)` key — the key of the
`UNIQUE(mac, seq)` constraint (source line 67). -/
def recordKeyMatches (mac : String) (seq : Int) (r : DbRecord) : Bool :=
  r.mac == mac && r.seq == seq

/-- Whether a row with the given key exists in the store. -/
def hasKey (store : List DbRecord) (mac : String) (seq : Int) : Bool :=
  store.any (recordKeyMatches mac seq)

/-- Number of stored rows with the given key.  The SQL `UNIQUE(mac, seq)`
constraint corresponds to this being at most 1. -/
def countKey (store : List DbRecord) (mac : String) (seq : Int) : Nat :=
  (store.filter (recordKeyMatches mac seq)).length

/-- `INSERT OR IGNORE INTO records` (source lines 137-141): appends the
row unless its `(mac, seq)` key already exists; the flag reports whether
a row was actually inserted (the change count of the statement). -/
def insertOrIgnore (store : List DbRecord) (r : DbRecord) :
    List DbRecord × Bool :=
  if hasKey store r.mac r.seq then (store, false) else (store ++ [r], true)

/-- Loop state of `insert_records`: the store, the connection-cumulative
`conn.total_changes`, and the `inserted` counter. -/
structure InsertLoopState where
  store : List DbRecord
  total_changes : Nat
  inserted : Nat
deriving Repr, DecidableEq

/-- One iteration of the `insert_records` loop (source lines 125-147):
insert-or-ignore the row, then increment `inserted` when
`conn.total_changes > 0`.  Note `total_changes` is cumulative over the
whole connection, exactly as in the source. -/
def insertStep (mac : String) (rssi : Int) (now_ms : Int)
    (st : InsertLoopState) (r : SessionRecord) : InsertLoopState :=
  let res := insertOrIgnore st.store (toDbRecord mac rssi now_ms r)
  let tc2 := if res.2 then st.total_changes + 1 else st.total_changes
  { store := res.1
    total_changes := tc2
    inserted := if 0 < tc2 then st.inserted + 1 else st.inserted }

/-- `SensorDatabase.insert_records` (source lines 116-151): returns the
new store together with the reported `inserted` count; an empty batch
returns 0 immediately. -/
def insert_records (store : List DbRecord) (mac : String)
    (records : List SessionRecord) (rssi : Int) (now_ms : Int) :
    List DbRecord × Nat :=
  if records.isEmpty then (store, 0)
  else
    let final := records.foldl (insertStep mac rssi now_ms)
      { store := store, total_changes := 0, inserted := 0 }
    (final.store, final.inserted)

/-- One row of the `sync_state` table (source lines 74-81). -/
structure SyncState where
  last_synced_seq : Int
  last_sync_time : Int
  total_synced : Nat
deriving Repr, DecidableEq

/-- The `sync_state` table, keyed by device mac. -/
def SyncTable : Type := List (String × SyncState)

/-- Row lookup in the `sync_state` table. -/
def lookupSync (table : SyncTable) (mac : String) : Option SyncState :=
  (List.find? (fun p => p.1 == mac) table).map (fun p => p.2)

/-- `SensorDatabase.get_sync_state` (source lines 84-104): the stored row,
or the first-synchronization default `last_synced_seq = -1`. -/
def get_sync_state (table : SyncTable) (mac : String) : SyncState :=
  match lookupSync table mac with
  | some s => s
  | none => { last_synced_seq := -1, last_sync_time := 0, total_synced := 0 }

/-- `SensorDatabase.update_sync_state` (source lines 106-114):
`INSERT OR REPLACE` writes the passed `last_synced_seq` unconditionally
and accumulates `total_synced` via
`COALESCE((SELECT total_synced ...), 0) + imported_count`. -/
def update_sync_state (table : SyncTable) (mac : String)
    (last_synced_seq : Int) (now_ms : Int) (imported_count : Nat) : SyncTable :=
  let old_total := match lookupSync table mac with
    | some s => s.total_synced
    | none => 0
  (mac, { last_synced_seq := last_synced_seq, last_sync_time := now_ms
          total_synced := old_total + imported_count })
    :: table.filter (fun p => !(p.1 == mac))

/-! ## Transfer session (`download_data`) -/

/-- `max(received_records, key=lambda r: r.seq).seq` (source lines
508-509); only called on a non-empty list in the source. -/
def maxSeq : List SessionRecord → Int
  | [] => 0
  | r :: rs => rs.foldl (fun m x => max m x.seq) r.seq

/-- What `download_data` returns and leaves behind: the boolean outcome,
the record store, the sync-state table, the reported inserted count and
the records received this session. -/
structure SessionOutput where
  success : Bool
  store : List DbRecord
  table : SyncTable
  inserted : Nat
  records : List SessionRecord

/-- The resume computation of source lines 386-390:
`start_index = max(last_synced_seq, -1) + 1`,
`to_download = device_total - start_index`. -/
def resume_point (last_synced_seq : Int) (device_total : Int) : Int × Int :=
  let app_last := max last_synced_seq (-1)
  let start_index := app_last + 1
  (start_index, device_total - start_index)

/-- The commit block of `download_data` (source lines 503-523): with no
records nothing is written (and, reaching line 544 with an empty list,
the function reports failure); otherwise the records are inserted, the
sync state is advanced to the highest seq seen, and success is
reported. -/
def commit_records (store : List DbRecord) (table : SyncTable)
    (mac : String) (now_ms : Int) (records : List SessionRecord) :
    SessionOutput :=
  if records.isEmpty then
    { success := false, store := store, table := table
      inserted := 0, records := [] }
  else
    let res := insert_records store mac records (-50) now_ms
    { success := true
      store := res.1
      table := update_sync_state table mac (maxSeq records) now_ms records.length
      inserted := res.2
      records := records }

/-- `download_data` (source lines 341-544), with the transport abstracted
to the list of notification frames that arrive during the wait loop:
compute the resume point; if nothing remains to download, return success
touching neither the store nor the sync table (source lines 391-394);
otherwise run the notification handler over the frames and commit. -/
def download_data (store : List DbRecord) (table : SyncTable)
    (mac : String) (device_total : Int) (frames : List Notif)
    (t0 : ℚ) (commit_now_ms : Int) : SessionOutput :=
  let rp := resume_point (get_sync_state table mac).last_synced_seq device_total
  if rp.2 ≤ 0 then
    { success := true, store := store, table := table
      inserted := 0, records := [] }
  else
    let s := processFrames rp.1 (initState t0) frames
    commit_records store table mac commit_now_ms s.received_records

/-- Idle window of the wait loop: `idle_timeout = 3` seconds
(source line 467). -/
def idle_timeout : ℚ := 3

/-- Hard timeout of the wait loop: `timeout = 20` seconds
(source line 466). -/
def hard_timeout : ℚ := 20

/-- How one iteration of the wait loop can end. -/
inductive LoopAction where
  | completeEnd
  | completeIdle
  | hardTimeout
  | keepWaiting
deriving Repr, DecidableEq

/-- One evaluation of the wait-loop conditions (source lines 470-486), in
source order: an END already marked the transfer complete; else the idle
window has elapsed while at least one DATA packet arrived (this sets
`transfer_complete` and completes the session); else the hard timeout
has elapsed; else keep waiting. -/
def loop_check (s : HandlerState) (now start_time : ℚ) : LoopAction :=
  if s.transfer_complete then .completeEnd
  else if idle_timeout < now - s.last_packet_time ∧ 0 < s.stats.data_packets then
    .completeIdle
  else if hard_timeout < now - start_time then .hardTimeout
  else .keepWaiting

/-! ## Decoder lemmas -/

/-- Length of the record loop started at position `i` (hence byte offset
`5 + 6 i`): it decodes until either the remaining declared count or the
remaining full 6-byte slots run out. -/
theorem decodeRecordsGo_length (data : List Nat) (sq t : Int) (c : Nat) :
    ∀ (n i : Nat),
      (decodeRecordsGo data sq t c n i (5 + 6 * i)).length
        = min n ((data.length - 5) / 6 - i)
  | 0, i => by simp [decodeRecordsGo]
  | n + 1, i => by
    unfold decodeRecordsGo parse_sensor_record
    by_cases h : 5 + 6 * i + 6 > data.length
    · rw [if_pos h]
      have hd : (data.length - 5) / 6 < i + 1 := by
        rw [Nat.div_lt_iff_lt_mul (by norm_num)]
        omega
      have hz : (data.length - 5) / 6 - i = 0 := by omega
      simp [hz]
    · rw [if_neg h]
      simp only [List.length_cons]
      have e : 5 + 6 * i + 6 = 5 + 6 * (i + 1) := by ring
      rw [e, decodeRecordsGo_length data sq t c n (i + 1)]
      have hd : i + 1 ≤ (data.length - 5) / 6 := by
        rw [Nat.le_div_iff_mul_le (by norm_num)]
        omega
      omega

/-- Number of records decoded from one DATA frame. -/
theorem decodeRecords_length (data : List Nat) (sq t : Int) (c : Nat) :
    (decodeRecords data sq t c).length = min c ((data.length - 5) / 6) := by
  simpa using decodeRecordsGo_length data sq t c c 0

/-! ## Concrete frames used in scenario proofs -/

/-- A well-formed 11-byte DATA frame declaring one record (type 1,
count 1, one full 6-byte record). -/
def frame11 : List Nat := [1, 0, 0, 1, 0, 1, 44, 3, 150, 50, 30]

/-- The DATA frame of Scenario C, exactly as the spec lists it:
`01 00 00 02 00 01 2C 03 96 32 01 2A 03 95 33` — 15 bytes, declared
count 2. -/
def frameC : List Nat := [1, 0, 0, 2, 0, 1, 44, 3, 150, 50, 1, 42, 3, 149, 51]

/-- The Scenario C payload completed to two full 6-byte records
(17 bytes): battery bytes `01` and `02` close the two records. -/
def frame17 : List Nat :=
  [1, 0, 0, 2, 0, 1, 44, 3, 150, 50, 1, 1, 42, 3, 149, 51, 2]

/-- Claim C5: for a DATA frame (first byte 1) of length ≥ 5 declaring
`record_count = bytes[3]`, the number of decoded records is at most the
declared count, equals it whenever `5 + 6·count ≤ frame_length`, the
handler appends exactly those records, and a truncated trailing record
never terminates the session (the completion flag is untouched by a DATA
frame). -/
theorem c5_decode_count (data : List Nat) (start_seq now_ms : Int) (now : ℚ)
    (s : HandlerState) (hty : data.getD 0 0 = 1) (hlen : 5 ≤ data.length) :
    (decodeRecords data start_seq now_ms (data.getD 3 0)).length ≤ data.getD 3 0
    ∧ (5 + 6 * data.getD 3 0 ≤ data.length →
        (decodeRecords data start_seq now_ms (data.getD 3 0)).length = data.getD 3 0)
    ∧ (notification_handler start_seq now_ms now s data).received_records
        = s.received_records ++ decodeRecords data start_seq now_ms (data.getD 3 0)
    ∧ (notification_handler start_seq now_ms now s data).transfer_complete
        = s.transfer_complete := by
  have h0 : ¬ data.length = 0 := by omega
  have hty' : data[0]?.getD 0 = 1 := by simpa [List.getD] using hty
  refine ⟨?_, ?_, ?_, ?_⟩
  · rw [decodeRecords_length]
    exact min_le_left _ _
  · intro h
    rw [decodeRecords_length]
    have hd : data.getD 3 0 ≤ (data.length - 5) / 6 := by
      rw [Nat.le_div_iff_mul_le (by norm_num)]
      omega
    omega
  · simp [notification_handler, h0, hty', PACKET_TYPE_HEADER, PACKET_TYPE_DATA, hlen]
  · simp [notification_handler, h0, hty', PACKET_TYPE_HEADER, PACKET_TYPE_DATA, hlen]

/-- Witness for C5 at the 17-byte two-record frame. -/
theorem c5_decode_count_witness :
    (frame17.getD 0 0 = 1 ∧ 5 ≤ frame17.length)
    ∧ ((decodeRecords frame17 0 0 (frame17.getD 3 0)).length ≤ frame17.getD 3 0
      ∧ (5 + 6 * frame17.getD 3 0 ≤ frame17.length →
          (decodeRecords frame17 0 0 (frame17.getD 3 0)).length = frame17.getD 3 0)
      ∧ (notification_handler 0 0 1 (initState 0) frame17).received_records
          = (initState 0).received_records ++ decodeRecords frame17 0 0 (frame17.getD 3 0)
      ∧ (notification_handler 0 0 1 (initState 0) frame17).transfer_complete
          = (initState 0).transfer_complete) :=
  ⟨⟨by decide, by decide⟩,
    c5_decode_count frame17 0 0 1 (initState 0) (by decide) (by decide)⟩

/-- Claim C1 (code bug): two consecutive one-record DATA frames both get
`seq = start_seq + 0`, because the source assigns `start_seq + i` with
`i` the loop index inside the current frame only (line 434), so the
index restarts at every frame instead of running across the session. -/
theorem c1_seq_repeats_across_frames :
    ((processFrames 10 (initState 0)
        [{ time := 0, wall_ms := 0, data := frame11 },
         { time := 1, wall_ms := 30000, data := frame11 }]).received_records.map
      (fun r => r.seq)) = [10, 10]
    ∧ ¬ ((10 : Int) < 10) := by
  constructor
  · decide
  · decide

/-- Claim C9 counterexample: the Scenario C frame is 15 bytes with
declared count 2, but two full records need 17 bytes; the code decodes
exactly one record from it, not two. -/
theorem c9_frame_c_cex :
    frameC.length = 15 ∧ frameC.getD 0 0 = 1 ∧ frameC.getD 3 0 = 2
    ∧ (decodeRecords frameC 0 0 2).length = 1
    ∧ (decodeRecords frameC 0 0 2).length ≠ 2
    ∧ (notification_handler 0 0 0 (initState 0) frameC).received_records.length = 1 := by
  refine ⟨by decide, by decide, by decide, by decide, by decide, by decide⟩

/-- Claim C6 counterexample: the END frame `02 07` (2 bytes) passes the
source's `len(data) >= 2` check and marks the transfer complete, yet
`parse_uint16_be(data, 1)` needs bytes 1..2 and returns `None`, so no
16-bit `total_sent` is decoded — contradicting the claim that every
END frame of length ≥ 2 yields `total_sent = be_u16(bytes[1:3])`. -/
theorem c6_end_frame_cex :
    2 ≤ ([2, 7] : List Nat).length
    ∧ ([2, 7] : List Nat).getD 0 0 = 2
    ∧ (notification_handler 0 0 0 (initState 0) [2, 7]).transfer_complete = true
    ∧ (notification_handler 0 0 0 (initState 0) [2, 7]).stats.end_received = true
    ∧ parse_uint16_be [2, 7] 1 = none
    ∧ parse_uint16_be [2, 7] 1 ≠ some (be_u16_val [2, 7] 1) := by
  refine ⟨by decide, by decide, by decide, by decide, by decide, by decide⟩

/-- Claim C7 (code bug): with one row `(mac = "d", seq = 2)` already
stored, inserting the batch `[seq 1 (new), seq 2 (already present)]`
reports 2 records saved although only one row was actually added.  The
source tests `conn.total_changes > 0`, a connection-cumulative counter,
so after the first successful insert every further record is counted even
when its `INSERT OR IGNORE` ignores it. -/
theorem c7_inserted_overcount :
    (insert_records [toDbRecord "d" (-50) 0 { seq := 2, timestamp_ms := 0, raw := ⟨0, 0, 0, 0⟩ }]
        "d" [{ seq := 1, timestamp_ms := 0, raw := ⟨0, 0, 0, 0⟩ },
             { seq := 2, timestamp_ms := 0, raw := ⟨0, 0, 0, 0⟩ }] (-50) 0).2 = 2
    ∧ (insert_records [toDbRecord "d" (-50) 0 { seq := 2, timestamp_ms := 0, raw := ⟨0, 0, 0, 0⟩ }]
        "d" [{ seq := 1, timestamp_ms := 0, raw := ⟨0, 0, 0, 0⟩ },
             { seq := 2, timestamp_ms := 0, raw := ⟨0, 0, 0, 0⟩ }] (-50) 0).1.length = 2 := by
  refine ⟨by decide, by decide⟩

/-! ## Storage lemmas -/

/-- Key counts add over concatenated stores. -/
theorem countKey_append (store l : List DbRecord) (m : String) (q : Int) :
    countKey (store ++ l) m q = countKey store m q + countKey l m q := by
  simp [countKey, List.filter_append]

/-- A key is present exactly when its row count is positive. -/
theorem hasKey_iff_countKey (store : List DbRecord) (m : String) (q : Int) :
    hasKey store m q = true ↔ 0 < countKey store m q := by
  induction store with
  | nil => simp [hasKey, countKey]
  | cons a l ih =>
    by_cases h : recordKeyMatches m q a
    · simp [hasKey, countKey, List.filter_cons, h]
    · simp only [hasKey, countKey, List.any_cons, List.filter_cons, h] at ih ⊢
      simpa [h] using ih

/-- The row produced by `toDbRecord` carries the intended key. -/
theorem countKey_singleton_self (mac : String) (rssi now_ms : Int)
    (r : SessionRecord) :
    countKey [toDbRecord mac rssi now_ms r] mac r.seq = 1 := by
  simp [countKey, List.filter_cons, recordKeyMatches, toDbRecord]

/-- Effect of one `INSERT OR IGNORE` on the count of its own key. -/
theorem countKey_insertOrIgnore (store : List DbRecord) (r : DbRecord) :
    countKey (insertOrIgnore store r).1 r.mac r.seq
      = if hasKey store r.mac r.seq then countKey store r.mac r.seq
        else countKey store r.mac r.seq + 1 := by
  unfold insertOrIgnore
  by_cases h : hasKey store r.mac r.seq
  · simp [h]
  · simp [h, countKey_append, countKey, List.filter_cons, recordKeyMatches]

/-- After one loop iteration on a record whose key occurs at most once,
the key occurs exactly once. -/
theorem countKey_insertStep (mac : String) (rssi now_ms : Int)
    (st : InsertLoopState) (r : SessionRecord)
    (h : countKey st.store mac r.seq ≤ 1) :
    countKey (insertStep mac rssi now_ms st r).store mac r.seq = 1 := by
  have hmac : (toDbRecord mac rssi now_ms r).mac = mac := rfl
  have hseq : (toDbRecord mac rssi now_ms r).seq = r.seq := rfl
  unfold insertStep insertOrIgnore
  simp only [hmac, hseq]
  split_ifs with hk
  · show countKey st.store mac r.seq = 1
    have h1 := (hasKey_iff_countKey st.store mac r.seq).mp hk
    omega
  · show countKey (st.store ++ [toDbRecord mac rssi now_ms r]) mac r.seq = 1
    rw [countKey_append, countKey_singleton_self]
    have h1 : countKey st.store mac r.seq = 0 := by
      rcases Nat.eq_zero_or_pos (countKey st.store mac r.seq) with h' | h'
      · exact h'
      · exact absurd ((hasKey_iff_countKey st.store mac r.seq).mpr h') (by simpa using hk)
    omega

/-- Claim C8: the record store is idempotent on the `(mac, seq)` key —
starting from any store satisfying the `UNIQUE(mac, seq)` constraint
(at most one row with the key), inserting the same record through two
separate `insert_records` calls, or twice within one batch, leaves
exactly one stored row with that key. -/
theorem c8_insert_idempotent (store : List DbRecord) (mac : String)
    (rec : SessionRecord) (rssi1 rssi2 rssi3 t1 t2 t3 : Int)
    (h : countKey store mac rec.seq ≤ 1) :
    countKey (insert_records (insert_records store mac [rec] rssi1 t1).1
        mac [rec] rssi2 t2).1 mac rec.seq = 1
    ∧ countKey (insert_records store mac [rec, rec] rssi3 t3).1 mac rec.seq = 1 := by
  have step1 : ∀ (rssi t : Int) (st : List DbRecord),
      countKey st mac rec.seq ≤ 1 →
      countKey (insert_records st mac [rec] rssi t).1 mac rec.seq = 1 := by
    intro rssi t st hst
    simp only [insert_records, List.isEmpty_cons, Bool.false_eq_true, if_false,
      List.foldl_cons, List.foldl_nil]
    exact countKey_insertStep mac rssi t { store := st, total_changes := 0, inserted := 0 } rec hst
  constructor
  · exact step1 rssi2 t2 _ (by rw [step1 rssi1 t1 store h])
  · simp only [insert_records, List.isEmpty_cons, Bool.false_eq_true, if_false,
      List.foldl_cons, List.foldl_nil]
    exact countKey_insertStep mac rssi3 t3 _ rec
      (by rw [countKey_insertStep mac rssi3 t3 { store := store, total_changes := 0, inserted := 0 } rec h])

/-- Witness for C8 on the empty store. -/
theorem c8_insert_idempotent_witness :
    countKey [] "d" (5 : Int) ≤ 1
    ∧ (countKey (insert_records (insert_records [] "d"
          [{ seq := 5, timestamp_ms := 0, raw := ⟨0, 0, 0, 0⟩ }] (-50) 0).1
        "d" [{ seq := 5, timestamp_ms := 0, raw := ⟨0, 0, 0, 0⟩ }] (-50) 0).1 "d" 5 = 1
      ∧ countKey (insert_records [] "d"
          [{ seq := 5, timestamp_ms := 0, raw := ⟨0, 0, 0, 0⟩ },
           { seq := 5, timestamp_ms := 0, raw := ⟨0, 0, 0, 0⟩ }] (-50) 0).1 "d" 5 = 1) :=
  ⟨by decide,
    c8_insert_idempotent [] "d" { seq := 5, timestamp_ms := 0, raw := ⟨0, 0, 0, 0⟩ }
      (-50) (-50) (-50) 0 0 0 (by decide)⟩

/-- Reading a device's sync row immediately after updating it: the new
row holds exactly the passed `last_synced_seq` and the accumulated
`total_synced`. -/
theorem get_update_self (table : SyncTable) (mac : String)
    (v now_ms : Int) (cnt : Nat) :
    get_sync_state (update_sync_state table mac v now_ms cnt) mac
      = { last_synced_seq := v, last_sync_time := now_ms
          total_synced := (get_sync_state table mac).total_synced + cnt } := by
  simp only [update_sync_state, get_sync_state, lookupSync]
  rw [List.find?_cons_of_pos _ (by simp)]
  cases hx : List.find? (fun p => p.1 == mac) table with
  | none => simp [hx]
  | some p => simp [hx]

/-- Claim C3, amended: `update_sync_state` performs `INSERT OR REPLACE`,
so the persisted `last_synced_seq` becomes exactly the value passed —
including a stale lower one — while `total_synced` is accumulated
(old value plus `imported_count`), never overwritten. -/
theorem c3_commit_overwrites (table : SyncTable) (mac : String)
    (v now_ms : Int) (cnt : Nat) :
    (get_sync_state (update_sync_state table mac v now_ms cnt) mac).last_synced_seq = v
    ∧ (get_sync_state (update_sync_state table mac v now_ms cnt) mac).total_synced
        = (get_sync_state table mac).total_synced + cnt := by
  rw [get_update_self]
  exact ⟨rfl, rfl⟩

/-- Claim C3 counterexample: with `last_synced_seq = 5` persisted for
device `"d"`, committing a stale session result with value 3 leaves the
persisted `last_synced_seq` at 3 < 5 — the commit does decrease it. -/
theorem c3_commit_decrease_cex :
    (get_sync_state
        [("d", { last_synced_seq := 5, last_sync_time := 0, total_synced := 4 })] "d").last_synced_seq = 5
    ∧ (get_sync_state
        (update_sync_state
          [("d", { last_synced_seq := 5, last_sync_time := 0, total_synced := 4 })]
          "d" 3 100 1) "d").last_synced_seq = 3
    ∧ (3 : Int) < 5 := by
  refine ⟨?_, ?_, by norm_num⟩
  · rw [show (get_sync_state
        [("d", { last_synced_seq := 5, last_sync_time := 0, total_synced := 4 })] "d")
        = { last_synced_seq := 5, last_sync_time := 0, total_synced := 4 } from by
      simp [get_sync_state, lookupSync, List.find?]]
  · rw [get_update_self]

/-! ## Session lemmas -/

/-- Claim C2: with persisted `last_synced_seq = S` (persisted values are
always ≥ −1: the lazy default is −1 and commits store record sequence
numbers) and device-reported total `T`, the resume computation yields
`start_index = S + 1` and `to_download = T − S − 1`; and whenever
`to_download ≤ 0` the session returns success immediately, leaving the
record store and the sync table untouched and reporting zero inserts. -/
theorem c2_resume_and_skip (store : List DbRecord) (table : SyncTable)
    (mac : String) (device_total : Int) (frames : List Notif) (t0 : ℚ)
    (now_ms : Int)
    (hS : -1 ≤ (get_sync_state table mac).last_synced_seq) :
    resume_point (get_sync_state table mac).last_synced_seq device_total
      = ((get_sync_state table mac).last_synced_seq + 1,
          device_total - (get_sync_state table mac).last_synced_seq - 1)
    ∧ (device_total - (get_sync_state table mac).last_synced_seq - 1 ≤ 0 →
        download_data store table mac device_total frames t0 now_ms
          = { success := true, store := store, table := table
              inserted := 0, records := [] }) := by
  have hmax : max (get_sync_state table mac).last_synced_seq (-1)
      = (get_sync_state table mac).last_synced_seq := max_eq_left hS
  have hrp : resume_point (get_sync_state table mac).last_synced_seq device_total
      = ((get_sync_state table mac).last_synced_seq + 1,
          device_total - (get_sync_state table mac).last_synced_seq - 1) := by
    simp only [resume_point, hmax]
    have e : device_total - ((get_sync_state table mac).last_synced_seq + 1)
        = device_total - (get_sync_state table mac).last_synced_seq - 1 := by ring
    rw [e]
  refine ⟨hrp, fun hle => ?_⟩
  unfold download_data
  rw [hrp]
  rw [if_pos hle]

/-- Witness for C2: first synchronization (empty sync table, default
`last_synced_seq = −1`) against a device reporting zero records. -/
theorem c2_resume_and_skip_witness :
    -1 ≤ (get_sync_state ([] : SyncTable) "d").last_synced_seq
    ∧ (resume_point (get_sync_state ([] : SyncTable) "d").last_synced_seq 0
        = ((get_sync_state ([] : SyncTable) "d").last_synced_seq + 1,
            0 - (get_sync_state ([] : SyncTable) "d").last_synced_seq - 1)
      ∧ (0 - (get_sync_state ([] : SyncTable) "d").last_synced_seq - 1 ≤ 0 →
          download_data [] ([] : SyncTable) "d" 0 [] 0 0
            = { success := true, store := [], table := ([] : SyncTable)
                inserted := 0, records := [] })) :=
  ⟨by decide, c2_resume_and_skip [] [] "d" 0 [] 0 0 (by decide)⟩

/-- Claim C10: the notification callback refreshes the idle-timer
reference point `last_packet_time` for every non-empty frame — HEADER,
DATA, END, unknown type or too short to decode alike — before examining
the type byte, and a zero-length frame leaves the whole state (the
reference point included) unchanged. -/
theorem c10_timer_reset (start_seq now_ms : Int) (now : ℚ)
    (s : HandlerState) (data : List Nat) :
    ((notification_handler start_seq now_ms now s data).last_packet_time
        = if data.length = 0 then s.last_packet_time else now)
    ∧ notification_handler start_seq now_ms now s [] = s := by
  constructor
  · unfold notification_handler
    by_cases h0 : data.length = 0
    · simp [h0]
    · rw [if_neg h0, if_neg h0]
      dsimp only
      split_ifs <;> rfl
  · rfl

/-- Claim C6, amended: for an END frame (first byte 2), three or more
bytes yield `total_sent = be_u16(bytes[1:3])` and mark the transfer
complete; a 2-byte END frame still passes the source's `len >= 2` check
and marks the transfer complete, but `parse_uint16_be` returns `None`,
so no 16-bit `total_sent` is decoded; a 1-byte END frame only refreshes
the idle timer and is otherwise dropped, leaving the session running. -/
theorem c6_end_frame (start_seq now_ms : Int) (now : ℚ) (s : HandlerState)
    (data : List Nat) (hty : data.getD 0 0 = 2) :
    (3 ≤ data.length →
      (notification_handler start_seq now_ms now s data).transfer_complete = true
      ∧ (notification_handler start_seq now_ms now s data).stats.end_received = true
      ∧ parse_uint16_be data 1 = some (be_u16_val data 1))
    ∧ (data.length = 2 →
      (notification_handler start_seq now_ms now s data).transfer_complete = true
      ∧ (notification_handler start_seq now_ms now s data).stats.end_received = true
      ∧ parse_uint16_be data 1 = none)
    ∧ (data.length = 1 →
      notification_handler start_seq now_ms now s data
        = { s with last_packet_time := now }) := by
  have hty' : data[0]?.getD 0 = 2 := by simpa [List.getD] using hty
  refine ⟨fun h3 => ?_, fun h2 => ?_, fun h1 => ?_⟩
  · have h0 : ¬ data.length = 0 := by omega
    have h2' : 2 ≤ data.length := by omega
    refine ⟨?_, ?_, ?_⟩
    · simp [notification_handler, h0, hty', PACKET_TYPE_HEADER, PACKET_TYPE_DATA,
        PACKET_TYPE_END, h2']
    · simp [notification_handler, h0, hty', PACKET_TYPE_HEADER, PACKET_TYPE_DATA,
        PACKET_TYPE_END, h2']
    · simp only [parse_uint16_be]
      rw [if_neg (by omega)]
  · have h0 : ¬ data.length = 0 := by omega
    have h2' : 2 ≤ data.length := by omega
    refine ⟨?_, ?_, ?_⟩
    · simp [notification_handler, h0, hty', PACKET_TYPE_HEADER, PACKET_TYPE_DATA,
        PACKET_TYPE_END, h2']
    · simp [notification_handler, h0, hty', PACKET_TYPE_HEADER, PACKET_TYPE_DATA,
        PACKET_TYPE_END, h2']
    · simp only [parse_uint16_be]
      rw [if_pos (by omega)]
  · have h0 : ¬ data.length = 0 := by omega
    have h2' : ¬ 2 ≤ data.length := by omega
    simp [notification_handler, h0, hty', PACKET_TYPE_HEADER, PACKET_TYPE_DATA,
      PACKET_TYPE_END, h2']

/-- Witness for C6 at the 3-byte END frame `02 00 05`. -/
theorem c6_end_frame_witness :
    ([2, 0, 5] : List Nat).getD 0 0 = 2
    ∧ ((3 ≤ ([2, 0, 5] : List Nat).length →
        (notification_handler 0 0 0 (initState 0) [2, 0, 5]).transfer_complete = true
        ∧ (notification_handler 0 0 0 (initState 0) [2, 0, 5]).stats.end_received = true
        ∧ parse_uint16_be [2, 0, 5] 1 = some (be_u16_val [2, 0, 5] 1))
      ∧ (([2, 0, 5] : List Nat).length = 2 →
        (notification_handler 0 0 0 (initState 0) [2, 0, 5]).transfer_complete = true
        ∧ (notification_handler 0 0 0 (initState 0) [2, 0, 5]).stats.end_received = true
        ∧ parse_uint16_be [2, 0, 5] 1 = none)
      ∧ (([2, 0, 5] : List Nat).length = 1 →
        notification_handler 0 0 0 (initState 0) [2, 0, 5]
          = { initState 0 with last_packet_time := 0 })) :=
  ⟨by decide, c6_end_frame 0 0 0 (initState 0) [2, 0, 5] (by decide)⟩

/-- The handler preserves the invariant that records can only have been
received if at least one DATA packet was counted. -/
theorem handler_packets_inv (start_seq now_ms : Int) (now : ℚ)
    (s : HandlerState) (data : List Nat)
    (h : s.received_records ≠ [] → 0 < s.stats.data_packets) :
    (notification_handler start_seq now_ms now s data).received_records ≠ [] →
      0 < (notification_handler start_seq now_ms now s data).stats.data_packets := by
  unfold notification_handler
  by_cases h0 : data.length = 0
  · simpa [h0] using h
  · rw [if_neg h0]
    dsimp only
    split_ifs <;>
      first
        | exact h
        | (intro _; exact Nat.succ_pos _)

/-- Any state reached from the initial state satisfies the invariant:
non-empty `received_records` forces `data_packets > 0`. -/
theorem processFrames_packets_inv (start_seq : Int) :
    ∀ (frames : List Notif) (s : HandlerState),
      (s.received_records ≠ [] → 0 < s.stats.data_packets) →
      ((processFrames start_seq s frames).received_records ≠ [] →
        0 < (processFrames start_seq s frames).stats.data_packets)
  | [], _, h => h
  | f :: fs, s, h =>
    processFrames_packets_inv start_seq fs _
      (handler_packets_inv start_seq f.wall_ms f.time s f.data h)

/-- A present key stays present when the store grows on the right. -/
theorem hasKey_append_left (store l : List DbRecord) (m : String) (q : Int)
    (h : hasKey store m q = true) : hasKey (store ++ l) m q = true := by
  simp only [hasKey, List.any_append, Bool.or_eq_true]
  exact Or.inl h

/-- One insert-loop iteration never removes a key. -/
theorem hasKey_insertStep_mono (mac : String) (rssi t : Int)
    (st : InsertLoopState) (r : SessionRecord) (m : String) (q : Int)
    (h : hasKey st.store m q = true) :
    hasKey (insertStep mac rssi t st r).store m q = true := by
  unfold insertStep insertOrIgnore
  split_ifs
  · exact h
  · exact hasKey_append_left _ _ _ _ h

/-- After one insert-loop iteration on a record, its key is present. -/
theorem hasKey_insertStep_self (mac : String) (rssi t : Int)
    (st : InsertLoopState) (r : SessionRecord) :
    hasKey (insertStep mac rssi t st r).store mac r.seq = true := by
  unfold insertStep insertOrIgnore
  split_ifs with hk
  · exact hk
  · show hasKey (st.store ++ [toDbRecord mac rssi t r]) mac r.seq = true
    simp [hasKey, List.any_append, recordKeyMatches, toDbRecord]

/-- The insert loop never removes a key. -/
theorem hasKey_foldl_mono (mac : String) (rssi t : Int) (m : String) (q : Int) :
    ∀ (records : List SessionRecord) (st : InsertLoopState),
      hasKey st.store m q = true →
      hasKey ((records.foldl (insertStep mac rssi t) st).store) m q = true
  | [], _, h => h
  | x :: xs, st, h => by
    rw [List.foldl_cons]
    exact hasKey_foldl_mono mac rssi t m q xs _
      (hasKey_insertStep_mono mac rssi t st x m q h)

/-- After the insert loop, every record of the batch has its key in the
store. -/
theorem hasKey_foldl_mem (mac : String) (rssi t : Int) :
    ∀ (records : List SessionRecord) (st : InsertLoopState) (r : SessionRecord),
      r ∈ records →
      hasKey ((records.foldl (insertStep mac rssi t) st).store) mac r.seq = true
  | [], _, _, hr => absurd hr (List.not_mem_nil _)
  | x :: xs, st, r, hr => by
    rw [List.foldl_cons]
    rcases List.mem_cons.mp hr with h | h
    · subst h
      exact hasKey_foldl_mono mac rssi t mac r.seq xs _
        (hasKey_insertStep_self mac rssi t st r)
    · exact hasKey_foldl_mem mac rssi t xs _ r h

/-- `insert_records` leaves every record of its batch present in the
store (freshly inserted or already there). -/
theorem hasKey_insert_records (store : List DbRecord) (mac : String)
    (records : List SessionRecord) (rssi t : Int) (r : SessionRecord)
    (hr : r ∈ records) :
    hasKey (insert_records store mac records rssi t).1 mac r.seq = true := by
  have hne : records.isEmpty = false := by
    cases records
    · exact absurd hr (List.not_mem_nil _)
    · rfl
  unfold insert_records
  simp only [hne, Bool.false_eq_true, if_false]
  exact hasKey_foldl_mem mac rssi t records _ r hr

/-- Claim C4: if, in the receiving loop, the idle window has elapsed
since the last frame while the transfer is not yet marked complete and
at least one record has been received, then the loop-exit decision is
the idle completion (never the hard timeout, which is tested after it),
and the subsequent commit leaves every received record present in the
store. -/
theorem c4_idle_completes (frames : List Notif) (start_seq : Int)
    (t0 now start_time : ℚ) (store : List DbRecord) (table : SyncTable)
    (mac : String) (now_ms : Int)
    (h1 : (processFrames start_seq (initState t0) frames).received_records ≠ [])
    (h2 : (processFrames start_seq (initState t0) frames).transfer_complete = false)
    (h3 : idle_timeout < now - (processFrames start_seq (initState t0) frames).last_packet_time) :
    loop_check (processFrames start_seq (initState t0) frames) now start_time
      = LoopAction.completeIdle
    ∧ loop_check (processFrames start_seq (initState t0) frames) now start_time
      ≠ LoopAction.hardTimeout
    ∧ ∀ r ∈ (processFrames start_seq (initState t0) frames).received_records,
        hasKey (commit_records store table mac now_ms
            (processFrames start_seq (initState t0) frames).received_records).store
          mac r.seq = true := by
  have hp : 0 < (processFrames start_seq (initState t0) frames).stats.data_packets :=
    processFrames_packets_inv start_seq frames (initState t0)
      (fun hc => absurd rfl hc) h1
  have hlc : loop_check (processFrames start_seq (initState t0) frames) now start_time
      = LoopAction.completeIdle := by
    unfold loop_check
    rw [if_neg (by simp [h2]), if_pos ⟨h3, hp⟩]
  refine ⟨hlc, by rw [hlc]; decide, ?_⟩
  intro r hr
  have hne : ¬ ((processFrames start_seq (initState t0) frames).received_records.isEmpty = true) := by
    simpa [List.isEmpty_iff] using h1
  unfold commit_records
  rw [if_neg hne]
  exact hasKey_insert_records store mac _ (-50) now_ms r hr

/-- Witness for C4: one DATA frame with one record arrives at time 0;
the loop evaluates at time 4, past the 3-second idle window. -/
theorem c4_idle_completes_witness :
    ((processFrames 0 (initState 0)
        [{ time := 0, wall_ms := 0, data := frame11 }]).received_records ≠ []
      ∧ (processFrames 0 (initState 0)
          [{ time := 0, wall_ms := 0, data := frame11 }]).transfer_complete = false
      ∧ idle_timeout < 4 - (processFrames 0 (initState 0)
          [{ time := 0, wall_ms := 0, data := frame11 }]).last_packet_time)
    ∧ (loop_check (processFrames 0 (initState 0)
          [{ time := 0, wall_ms := 0, data := frame11 }]) 4 0
        = LoopAction.completeIdle
      ∧ loop_check (processFrames 0 (initState 0)
          [{ time := 0, wall_ms := 0, data := frame11 }]) 4 0
        ≠ LoopAction.hardTimeout
      ∧ ∀ r ∈ (processFrames 0 (initState 0)
          [{ time := 0, wall_ms := 0, data := frame11 }]).received_records,
          hasKey (commit_records [] [] "d" 0
              (processFrames 0 (initState 0)
                [{ time := 0, wall_ms := 0, data := frame11 }]).received_records).store
            "d" r.seq = true) :=
  ⟨⟨by decide, by decide, by
      have h : (processFrames 0 (initState 0)
          [{ time := 0, wall_ms := 0, data := frame11 }]).last_packet_time = 0 := rfl
      rw [h]
      norm_num [idle_timeout]⟩,
    c4_idle_completes [{ time := 0, wall_ms := 0, data := frame11 }] 0 0 4 0 [] [] "d" 0
      (by decide) (by decide)
      (by
        have h : (processFrames 0 (initState 0)
            [{ time := 0, wall_ms := 0, data := frame11 }]).last_packet_time = 0 := rfl
        rw [h]
        norm_num [idle_timeout])⟩

/-- Claim C9, amended: each fully present 6-byte record at `offset`
decodes to `temp_raw = be_i16` (signed, /10 → °C), `press_kpa = be_u16`
(direct kPa), `humidity = bytes[4]` (direct %), `battery = bytes[5]`
(/10 → V).  Scenario C as printed, however, is a 15-byte frame whose
declared count 2 would need 17 bytes, so it decodes to exactly ONE
record (seq `start_seq + 0`); completing it to 17 bytes yields the two
records with seq `start_seq + 0`, `start_seq + 1` and the stated
values. -/
theorem c9_record_fields (data : List Nat) (off : Nat)
    (h : off + 6 ≤ data.length) :
    parse_sensor_record data off
      = some { temp_raw := signed16 (be_u16_val data off)
               press_kpa := be_u16_val data (off + 2)
               hum_pct := data.getD (off + 4) 0
               bat_raw := data.getD (off + 5) 0 }
    ∧ (∀ r, parse_sensor_record data off = some r →
        r.temp_c = (signed16 (be_u16_val data off) : ℚ) / 10
        ∧ (r.press_kpa : ℚ) = (be_u16_val data (off + 2) : ℚ)
        ∧ (r.hum_pct : ℚ) = (data.getD (off + 4) 0 : ℚ)
        ∧ r.battery_v = (data.getD (off + 5) 0 : ℚ) / 10)
    ∧ (decodeRecords frameC 7 0 2).map (fun r => r.seq) = [7]
    ∧ (decodeRecords frame17 7 0 2).map (fun r => r.seq) = [7, 8]
    ∧ (decodeRecords frame17 7 0 2).map
        (fun r => (r.raw.temp_c, (r.raw.press_kpa : ℚ), (r.raw.hum_pct : ℚ), r.raw.battery_v))
      = [(30, 918, 50, 1 / 10), (149 / 5, 917, 51, 1 / 5)] := by
  have hp : parse_sensor_record data off
      = some { temp_raw := signed16 (be_u16_val data off)
               press_kpa := be_u16_val data (off + 2)
               hum_pct := data.getD (off + 4) 0
               bat_raw := data.getD (off + 5) 0 } := by
    unfold parse_sensor_record
    rw [if_neg (by omega)]
  have hdec : decodeRecords frame17 7 0 2
      = [{ seq := 7, timestamp_ms := -30000
           raw := { temp_raw := 300, press_kpa := 918, hum_pct := 50, bat_raw := 1 } },
         { seq := 8, timestamp_ms := 0
           raw := { temp_raw := 298, press_kpa := 917, hum_pct := 51, bat_raw := 2 } }] := by
    decide
  refine ⟨hp, ?_, by decide, by decide, ?_⟩
  · intro r hr
    rw [hp] at hr
    obtain rfl : _ = r := Option.some.inj hr
    exact ⟨rfl, rfl, rfl, rfl⟩
  · rw [hdec]
    norm_num [RawRecord.temp_c, RawRecord.battery_v]

/-- Witness for C9 at the first record of the completed 17-byte frame. -/
theorem c9_record_fields_witness :
    5 + 6 ≤ frame17.length
    ∧ (parse_sensor_record frame17 5
        = some { temp_raw := signed16 (be_u16_val frame17 5)
                 press_kpa := be_u16_val frame17 (5 + 2)
                 hum_pct := frame17.getD (5 + 4) 0
                 bat_raw := frame17.getD (5 + 5) 0 }
      ∧ (∀ r, parse_sensor_record frame17 5 = some r →
          r.temp_c = (signed16 (be_u16_val frame17 5) : ℚ) / 10
          ∧ (r.press_kpa : ℚ) = (be_u16_val frame17 (5 + 2) : ℚ)
          ∧ (r.hum_pct : ℚ) = (frame17.getD (5 + 4) 0 : ℚ)
          ∧ r.battery_v = (frame17.getD (5 + 5) 0 : ℚ) / 10)
      ∧ (decodeRecords frameC 7 0 2).map (fun r => r.seq) = [7]
      ∧ (decodeRecords frame17 7 0 2).map (fun r => r.seq) = [7, 8]
      ∧ (decodeRecords frame17 7 0 2).map
          (fun r => (r.raw.temp_c, (r.raw.press_kpa : ℚ), (r.raw.hum_pct : ℚ), r.raw.battery_v))
        = [(30, 918, 50, 1 / 10), (149 / 5, 917, 51, 1 / 5)]) :=
  ⟨by decide, c9_record_fields frame17 5 (by decide)⟩

end SensorDL
